/-
Verification of the appointment availability & booking engine of the
dental-receptionist repository.

Shallow embedding of:
  * src/server/cal/google_calendar.py
      - `_merge_overlapping_periods`  (busy-period merge)
      - `_generate_available_slots`   (slot generation)
      - `get_available_slots`         (business hours + pipeline)
      - `create_appointment`          (calendar write)
  * src/server/processors/appointment.py
      - `_parse_date`                 (strptime over four formats)
      - `_get_service_duration`       (keyword → duration table)
      - `process_appointment_request` (checkAvailability session update)
      - `book_appointment`            (tolerance matching + commit)
      - `_handle_book_appointment`    (user-facing response text)

Conventions: instants (Python timezone-aware datetimes) are embedded as
`Int` epoch seconds; the remote Google service is a function parameter
(`CalendarEnv`); an exception caught by the source is an `Option`/`Except`
failure value.
-/
import Mathlib

namespace DentalReceptionist

/-! ## Busy periods and their merge

A busy period is the pair `(event_start, event_end)` built in
`_get_busy_periods`; Python tuples of datetimes become pairs of `Int`. -/

/-- The comparison used by `sorted(periods, key=lambda x: x[0])`:
Python's sort compares only the key, i.e. the start. -/
def startLE (a b : Int × Int) : Prop := a.1 ≤ b.1

instance : DecidableRel startLE := fun a b => inferInstanceAs (Decidable (a.1 ≤ b.1))

instance : IsTotal (Int × Int) startLE := ⟨fun a b => Int.le_total a.1 b.1⟩

instance : IsTrans (Int × Int) startLE := ⟨fun _ _ _ => Int.le_trans⟩

/-- The merge loop of `_merge_overlapping_periods`: `cur` is `merged[-1]`,
the accumulated last period; `period[0] <= merged[-1][1]` merges taking
`max` of the ends, otherwise `cur` is emitted and the walk restarts at
`period`. -/
def mergeGo (cur : Int × Int) : List (Int × Int) → List (Int × Int)
  | [] => [cur]
  | p :: ps =>
    if p.1 ≤ cur.2 then mergeGo (cur.1, max cur.2 p.2) ps
    else cur :: mergeGo p ps

/-- `GoogleCalendarService._merge_overlapping_periods`: sort by start,
then walk once merging overlaps.  Python's `sorted` is a stable sort by
the start key; `List.insertionSort startLE` is a stable sort by the same
key, and all stable sorts by one key coincide, so the embedding is exact. -/
def merge_overlapping_periods (periods : List (Int × Int)) : List (Int × Int) :=
  match List.insertionSort startLE periods with
  | [] => []
  | p :: ps => mergeGo p ps

/-! ## Slot generation -/

/-- One generated slot: the dictionary built in `_generate_available_slots`
also carries `'start'`/`'end'`, the `%H:%M` renderings of the same two
datetimes (pure functions of them, never consulted by the verified
operations), so the information content is the two instants. -/
structure Slot where
  start_datetime : Int
  end_datetime : Int
deriving DecidableEq, Repr

/-- The conflict test of `_generate_available_slots`: the slot is dropped
iff some busy period has `current_time < busy_end and slot_end > busy_start`. -/
def overlapsBusy (slot_start slot_end : Int) (busy_periods : List (Int × Int)) : Bool :=
  busy_periods.any fun b => decide (slot_start < b.2) && decide (slot_end > b.1)

/-- The `while current_time + slot_duration <= end_datetime` loop of
`_generate_available_slots`; `slot_duration` is in seconds, the stride is
the fixed `slot_interval = 30` minutes.  The loop advances by 1800 every
iteration, so it runs `(end - duration - start) / 1800 + 1` times (0 when
negative); the extra `fuel` argument is any upper bound on that count and
never alters the result (`generateSlotsGo_fuel_ext` below), it only makes
the recursion structural. -/
def generateSlotsGo (end_datetime : Int) (busy_periods : List (Int × Int))
    (slot_duration : Int) : Nat → Int → List Slot
  | 0, _ => []
  | fuel + 1, current_time =>
    if current_time + slot_duration ≤ end_datetime then
      let slot_end := current_time + slot_duration
      if overlapsBusy current_time slot_end busy_periods then
        generateSlotsGo end_datetime busy_periods slot_duration fuel (current_time + 1800)
      else
        ⟨current_time, slot_end⟩ ::
          generateSlotsGo end_datetime busy_periods slot_duration fuel (current_time + 1800)
    else []

/-- The number of iterations the `while` loop performs from `current_time`. -/
def slotIterations (end_datetime slot_duration current_time : Int) : Nat :=
  ((end_datetime - slot_duration - current_time) / 1800 + 1).toNat

/-- Any fuel at least the iteration count gives the same slot list: the
fuel is administrative, the loop itself decides when to stop. -/
theorem generateSlotsGo_fuel_ext (end_datetime : Int) (busy_periods : List (Int × Int))
    (slot_duration : Int) :
    ∀ (fuel₁ fuel₂ : Nat) (current_time : Int),
      slotIterations end_datetime slot_duration current_time ≤ fuel₁ →
      slotIterations end_datetime slot_duration current_time ≤ fuel₂ →
      generateSlotsGo end_datetime busy_periods slot_duration fuel₁ current_time =
        generateSlotsGo end_datetime busy_periods slot_duration fuel₂ current_time := by
  intro fuel₁
  induction fuel₁ with
  | zero =>
    intro fuel₂ current h1 _
    have hc : ¬ current + slot_duration ≤ end_datetime := by
      simp only [slotIterations, Nat.le_zero, Int.toNat_eq_zero] at h1
      omega
    cases fuel₂ with
    | zero => rfl
    | succ m => simp [generateSlotsGo, hc]
  | succ n ih =>
    intro fuel₂ current h1 h2
    by_cases hc : current + slot_duration ≤ end_datetime
    · have hpos : 1 ≤ slotIterations end_datetime slot_duration current := by
        simp only [slotIterations]
        omega
      cases fuel₂ with
      | zero => omega
      | succ m =>
        have hstep : slotIterations end_datetime slot_duration (current + 1800) =
            slotIterations end_datetime slot_duration current - 1 := by
          simp only [slotIterations]
          omega
        have h1' : slotIterations end_datetime slot_duration (current + 1800) ≤ n := by omega
        have h2' : slotIterations end_datetime slot_duration (current + 1800) ≤ m := by omega
        simp only [generateSlotsGo, hc, if_true]
        rw [ih m (current + 1800) h1' h2']
    · cases fuel₂ with
      | zero =>
        simp only [slotIterations, Nat.le_zero] at h1
        simp [generateSlotsGo, hc]
      | succ m => simp [generateSlotsGo, hc]

/-- `GoogleCalendarService._generate_available_slots`. -/
def generate_available_slots (start_datetime end_datetime : Int)
    (busy_periods : List (Int × Int)) (duration_minutes : Int) : List Slot :=
  generateSlotsGo end_datetime busy_periods (60 * duration_minutes)
    (end_datetime - 60 * duration_minutes - start_datetime + 1800).toNat start_datetime

/-! ## Date parsing: `AppointmentProcessor._parse_date`

`datetime.datetime.strptime(date_str, fmt)` is tried for the formats
`'%d/%m/%Y', '%Y-%m-%d', '%d-%m-%Y', '%d %B %Y'` in that order; the first
success wins, and exhaustion raises (embedded as `none`).  CPython's
`strptime` compiles each format to a regex that must consume the whole
string: `%d` is `3[01]|[12]\d|0[1-9]|[1-9]`, `%m` is `1[0-2]|0[1-9]|[1-9]`,
`%Y` is exactly four digits, a literal space is `\s+`, and `%B` is the
C-locale English month names matched case-insensitively; the resulting
numbers must then form a valid calendar date.  Since every separator is a
non-digit and the numeric alternatives consume only digits, regex
backtracking never changes the outcome, so the greedy parsers below are
exact. -/

def digitVal (c : Char) : Nat := c.toNat - '0'.toNat

/-- `%d`: day 1–31, optional zero padding. -/
def pDay : List Char → Option (Nat × List Char)
  | c1 :: c2 :: rest =>
    if (c1 == '3' && (c2 == '0' || c2 == '1')) ||
        ((c1 == '1' || c1 == '2') && c2.isDigit) ||
        (c1 == '0' && c2.isDigit && c2 != '0') then
      some (10 * digitVal c1 + digitVal c2, rest)
    else if c1.isDigit && c1 != '0' then some (digitVal c1, c2 :: rest)
    else none
  | [c1] => if c1.isDigit && c1 != '0' then some (digitVal c1, []) else none
  | [] => none

/-- `%m`: month 1–12, optional zero padding. -/
def pMonth : List Char → Option (Nat × List Char)
  | c1 :: c2 :: rest =>
    if (c1 == '1' && (c2 == '0' || c2 == '1' || c2 == '2')) ||
        (c1 == '0' && c2.isDigit && c2 != '0') then
      some (10 * digitVal c1 + digitVal c2, rest)
    else if c1.isDigit && c1 != '0' then some (digitVal c1, c2 :: rest)
    else none
  | [c1] => if c1.isDigit && c1 != '0' then some (digitVal c1, []) else none
  | [] => none

/-- `%Y`: exactly four digits. -/
def pYear4 : List Char → Option (Nat × List Char)
  | a :: b :: c :: d :: rest =>
    if a.isDigit && b.isDigit && c.isDigit && d.isDigit then
      some (1000 * digitVal a + 100 * digitVal b + 10 * digitVal c + digitVal d, rest)
    else none
  | _ => none

/-- A literal separator character of the format. -/
def pLit (ch : Char) : List Char → Option (List Char)
  | c :: rest => if c == ch then some rest else none
  | [] => none

/-- A literal whitespace in the format, compiled by `strptime` to `\s+`. -/
def pSpaces1 : List Char → Option (List Char)
  | c :: rest => if c.isWhitespace then some (rest.dropWhile Char.isWhitespace) else none
  | [] => none

/-- C-locale full month names used by `%B` (no name is a prefix of
another, so the alternation order CPython uses is immaterial). -/
def monthNames : List (List Char × Nat) :=
  [("january".data, 1), ("february".data, 2), ("march".data, 3), ("april".data, 4),
   ("may".data, 5), ("june".data, 6), ("july".data, 7), ("august".data, 8),
   ("september".data, 9), ("october".data, 10), ("november".data, 11), ("december".data, 12)]

/-- Case-insensitive (`re.IGNORECASE`, ASCII names) prefix strip. -/
def stripPrefixCI : List Char → List Char → Option (List Char)
  | [], cs => some cs
  | _ :: _, [] => none
  | n :: ns, c :: cs => if c.toLower == n then stripPrefixCI ns cs else none

/-- `%B`: one of the month names. -/
def pMonthB (cs : List Char) : Option (Nat × List Char) :=
  monthNames.foldr
    (fun nm acc =>
      match stripPrefixCI nm.1 cs with
      | some rest => some (nm.2, rest)
      | none => acc)
    none

def isLeap (y : Nat) : Bool := y % 4 == 0 && (y % 100 != 0 || y % 400 == 0)

def daysInMonth (y m : Nat) : Nat :=
  if m == 2 then (if isLeap y then 29 else 28)
  else if m == 4 || m == 6 || m == 9 || m == 11 then 30
  else 31

/-- A Python `datetime.date` (what `_parse_date` returns). -/
structure Date where
  year : Nat
  month : Nat
  day : Nat
deriving DecidableEq, Repr

/-- The validity check `datetime.datetime(...)` performs on the matched
numbers (month range is already enforced by the `%m`/`%B` patterns). -/
def mkDate (y m d : Nat) : Option Date :=
  if 1 ≤ y && 1 ≤ d && d ≤ daysInMonth y m then some ⟨y, m, d⟩ else none

/-- `%d<sep>%m<sep>%Y` (covers `'%d/%m/%Y'` and `'%d-%m-%Y'`). -/
def tryFormatDMY (sep : Char) (cs : List Char) : Option Date := do
  let (d, cs) ← pDay cs
  let cs ← pLit sep cs
  let (m, cs) ← pMonth cs
  let cs ← pLit sep cs
  let (y, cs) ← pYear4 cs
  if cs.isEmpty then mkDate y m d else none

/-- `'%Y-%m-%d'`. -/
def tryFormatYMD (cs : List Char) : Option Date := do
  let (y, cs) ← pYear4 cs
  let cs ← pLit '-' cs
  let (m, cs) ← pMonth cs
  let cs ← pLit '-' cs
  let (d, cs) ← pDay cs
  if cs.isEmpty then mkDate y m d else none

/-- `'%d %B %Y'`. -/
def tryFormatDBY (cs : List Char) : Option Date := do
  let (d, cs) ← pDay cs
  let cs ← pSpaces1 cs
  let (m, cs) ← pMonthB cs
  let cs ← pSpaces1 cs
  let (y, cs) ← pYear4 cs
  if cs.isEmpty then mkDate y m d else none

/-- `AppointmentProcessor._parse_date`: first successful format wins;
`none` embeds the `ValueError` raised when every format fails. -/
def parse_date (s : String) : Option Date :=
  match tryFormatDMY '/' s.data with
  | some d => some d
  | none =>
    match tryFormatYMD s.data with
    | some d => some d
    | none =>
      match tryFormatDMY '-' s.data with
      | some d => some d
      | none => tryFormatDBY s.data

/-! ## Weekday and business hours -/

/-- Days before month `m` in year `y` (proleptic Gregorian). -/
def daysBeforeMonth (y m : Nat) : Nat :=
  let base :=
    match m with
    | 1 => 0 | 2 => 31 | 3 => 59 | 4 => 90 | 5 => 120 | 6 => 151
    | 7 => 181 | 8 => 212 | 9 => 243 | 10 => 273 | 11 => 304 | _ => 334
  base + (if 3 ≤ m && isLeap y then 1 else 0)

/-- `datetime.date.toordinal`: 0001-01-01 is ordinal 1. -/
def toOrdinal (dt : Date) : Nat :=
  let y := dt.year - 1
  365 * y + y / 4 - y / 100 + y / 400 + daysBeforeMonth dt.year dt.month + dt.day

/-- `datetime.date.weekday`: Monday = 0 (0001-01-01 was a Monday). -/
def pyWeekday (dt : Date) : Nat := (toOrdinal dt + 6) % 7

/-- The `business_hours` dictionary of `get_available_slots`:
Monday–Friday 9–17, weekend `None`. -/
def business_hours (weekday : Nat) : Option (Nat × Nat) :=
  match weekday with
  | 0 | 1 | 2 | 3 | 4 => some (9, 17)
  | _ => none

/-! ## Service-duration resolution: `_get_service_duration` -/

/-- The `durations` dictionary, in insertion (= iteration) order. -/
def durations : List (String × Int) :=
  [("contrôle", 30), ("nettoyage", 45), ("carie", 60), ("obturation", 60),
   ("couronne", 90), ("bridge", 90), ("blanchiment", 60), ("canal", 90),
   ("extraction", 45)]

/-- The `for key, value in durations.items(): if key in service_type.lower()`
walk; falling off the table returns the default 60. -/
def serviceLookup : List (String × Int) → List Char → Int
  | [], _ => 60
  | (k, v) :: rest, target =>
    if k.data <:+: target then v else serviceLookup rest target

/-- The Unicode 14.0 simple lowercase mapping that CPython 3.11's
`str.lower` applies per character, transcribed exhaustively as maximal
runs `(first, last, stride, delta)`: every code point `n` with
`first ≤ n ≤ last` and `(n - first) % stride = 0` lowers to `n + delta`,
and every code point outside all runs lowers to itself.  (Generated from
the mapping itself: 1432 code points change under lowering; the single
multi-character mapping, U+0130, is handled separately in `pyLowerChar`.) -/
def lowerRuns : List (Nat × Nat × Nat × Int) :=
  [(65, 90, 1, 32), (192, 214, 1, 32), (216, 222, 1, 32),
   (256, 302, 2, 1), (306, 310, 2, 1), (313, 327, 2, 1),
   (330, 374, 2, 1), (376, 376, 1, -121), (377, 381, 2, 1),
   (385, 385, 1, 210), (386, 388, 2, 1), (390, 390, 1, 206),
   (391, 391, 1, 1), (393, 394, 1, 205), (395, 395, 1, 1),
   (398, 398, 1, 79), (399, 399, 1, 202), (400, 400, 1, 203),
   (401, 401, 1, 1), (403, 403, 1, 205), (404, 404, 1, 207),
   (406, 406, 1, 211), (407, 407, 1, 209), (408, 408, 1, 1),
   (412, 412, 1, 211), (413, 413, 1, 213), (415, 415, 1, 214),
   (416, 420, 2, 1), (422, 422, 1, 218), (423, 423, 1, 1),
   (425, 425, 1, 218), (428, 428, 1, 1), (430, 430, 1, 218),
   (431, 431, 1, 1), (433, 434, 1, 217), (435, 437, 2, 1),
   (439, 439, 1, 219), (440, 440, 1, 1), (444, 444, 1, 1),
   (452, 452, 1, 2), (453, 453, 1, 1), (455, 455, 1, 2),
   (456, 456, 1, 1), (458, 458, 1, 2), (459, 475, 2, 1),
   (478, 494, 2, 1), (497, 497, 1, 2), (498, 500, 2, 1),
   (502, 502, 1, -97), (503, 503, 1, -56), (504, 542, 2, 1),
   (544, 544, 1, -130), (546, 562, 2, 1), (570, 570, 1, 10795),
   (571, 571, 1, 1), (573, 573, 1, -163), (574, 574, 1, 10792),
   (577, 577, 1, 1), (579, 579, 1, -195), (580, 580, 1, 69),
   (581, 581, 1, 71), (582, 590, 2, 1), (880, 882, 2, 1),
   (886, 886, 1, 1), (895, 895, 1, 116), (902, 902, 1, 38),
   (904, 906, 1, 37), (908, 908, 1, 64), (910, 911, 1, 63),
   (913, 929, 1, 32), (931, 939, 1, 32), (975, 975, 1, 8),
   (984, 1006, 2, 1), (1012, 1012, 1, -60), (1015, 1015, 1, 1),
   (1017, 1017, 1, -7), (1018, 1018, 1, 1), (1021, 1023, 1, -130),
   (1024, 1039, 1, 80), (1040, 1071, 1, 32), (1120, 1152, 2, 1),
   (1162, 1214, 2, 1), (1216, 1216, 1, 15), (1217, 1229, 2, 1),
   (1232, 1326, 2, 1), (1329, 1366, 1, 48), (4256, 4293, 1, 7264),
   (4295, 4295, 1, 7264), (4301, 4301, 1, 7264), (5024, 5103, 1, 38864),
   (5104, 5109, 1, 8), (7312, 7354, 1, -3008), (7357, 7359, 1, -3008),
   (7680, 7828, 2, 1), (7838, 7838, 1, -7615), (7840, 7934, 2, 1),
   (7944, 7951, 1, -8), (7960, 7965, 1, -8), (7976, 7983, 1, -8),
   (7992, 7999, 1, -8), (8008, 8013, 1, -8), (8025, 8031, 2, -8),
   (8040, 8047, 1, -8), (8072, 8079, 1, -8), (8088, 8095, 1, -8),
   (8104, 8111, 1, -8), (8120, 8121, 1, -8), (8122, 8123, 1, -74),
   (8124, 8124, 1, -9), (8136, 8139, 1, -86), (8140, 8140, 1, -9),
   (8152, 8153, 1, -8), (8154, 8155, 1, -100), (8168, 8169, 1, -8),
   (8170, 8171, 1, -112), (8172, 8172, 1, -7), (8184, 8185, 1, -128),
   (8186, 8187, 1, -126), (8188, 8188, 1, -9), (8486, 8486, 1, -7517),
   (8490, 8490, 1, -8383), (8491, 8491, 1, -8262), (8498, 8498, 1, 28),
   (8544, 8559, 1, 16), (8579, 8579, 1, 1), (9398, 9423, 1, 26),
   (11264, 11311, 1, 48), (11360, 11360, 1, 1), (11362, 11362, 1, -10743),
   (11363, 11363, 1, -3814), (11364, 11364, 1, -10727), (11367, 11371, 2, 1),
   (11373, 11373, 1, -10780), (11374, 11374, 1, -10749), (11375, 11375, 1, -10783),
   (11376, 11376, 1, -10782), (11378, 11378, 1, 1), (11381, 11381, 1, 1),
   (11390, 11391, 1, -10815), (11392, 11490, 2, 1), (11499, 11501, 2, 1),
   (11506, 11506, 1, 1), (42560, 42604, 2, 1), (42624, 42650, 2, 1),
   (42786, 42798, 2, 1), (42802, 42862, 2, 1), (42873, 42875, 2, 1),
   (42877, 42877, 1, -35332), (42878, 42886, 2, 1), (42891, 42891, 1, 1),
   (42893, 42893, 1, -42280), (42896, 42898, 2, 1), (42902, 42920, 2, 1),
   (42922, 42922, 1, -42308), (42923, 42923, 1, -42319), (42924, 42924, 1, -42315),
   (42925, 42925, 1, -42305), (42926, 42926, 1, -42308), (42928, 42928, 1, -42258),
   (42929, 42929, 1, -42282), (42930, 42930, 1, -42261), (42931, 42931, 1, 928),
   (42932, 42946, 2, 1), (42948, 42948, 1, -48), (42949, 42949, 1, -42307),
   (42950, 42950, 1, -35384), (42951, 42953, 2, 1), (42960, 42960, 1, 1),
   (42966, 42968, 2, 1), (42997, 42997, 1, 1), (65313, 65338, 1, 32),
   (66560, 66599, 1, 40), (66736, 66771, 1, 40), (66928, 66938, 1, 39),
   (66940, 66954, 1, 39), (66956, 66962, 1, 39), (66964, 66965, 1, 39),
   (68736, 68786, 1, 64), (71840, 71871, 1, 32), (93760, 93791, 1, 32),
   (125184, 125217, 1, 34)]

/-- Delta lookup over `lowerRuns` (0 when the code point is unchanged). -/
def lowerDeltaFind : List (Nat × Nat × Nat × Int) → Nat → Int
  | [], _ => 0
  | (a, b, s, d) :: rest, n =>
    if a ≤ n && n ≤ b && (n - a) % s == 0 then d else lowerDeltaFind rest n

/-- Python `str.lower` on one character: the full Unicode case mapping —
the simple mapping of `lowerRuns` plus the one unconditional SpecialCasing
expansion, U+0130 LATIN CAPITAL LETTER I WITH DOT ABOVE → U+0069 U+0307. -/
def pyLowerChar (c : Char) : List Char :=
  if c.toNat == 0x130 then [Char.ofNat 0x69, Char.ofNat 0x307]
  else [Char.ofNat ((c.toNat : Int) + lowerDeltaFind lowerRuns c.toNat).toNat]

/-- Python `str.lower`, as the character list the substring test runs
over. -/
def pyLower (s : String) : List Char := s.data.flatMap pyLowerChar

/-- `AppointmentProcessor._get_service_duration`. -/
def get_service_duration (service_type : String) : Int :=
  serviceLookup durations (pyLower service_type)

/-! ## The calendar environment

`GoogleCalendarService` holds a remote `service`; its observable behaviour
during one call is a function of the request, embedded as explicit
parameters.  `dayHourEpoch d h` is the instant
`datetime.combine(d, time(h)).replace(tzinfo=Europe/Paris)`; `listEvents`
returns the raw `(event_start, event_end)` pairs built from the listed
events, or `none` for a raised remote error; `insertEvent` models
`events().insert(...).execute()`. -/
structure RemoteEvent where
  id : String
  link : String
deriving DecidableEq, Repr

/-- The `event` body handed to `events().insert`; the `%Y-%m-%dT%H:%M:%S`
rendering of `_format_datetime_for_google` is second-precise, i.e. the
instants themselves. -/
structure EventBody where
  summary : String
  description : String
  start_dt : Int
  end_dt : Int
deriving DecidableEq, Repr

structure CalendarEnv where
  dayHourEpoch : Date → Nat → Int
  listEvents : Int → Int → Option (List (Int × Int))
  insertEvent : EventBody → Option RemoteEvent

/-- `GoogleCalendarService._get_busy_periods`: on success the raw periods
are merged; a raised error is caught and becomes the empty list. -/
def get_busy_periods (env : CalendarEnv) (start_datetime end_datetime : Int) :
    List (Int × Int) :=
  match env.listEvents start_datetime end_datetime with
  | none => []
  | some raw => merge_overlapping_periods raw

/-- `GoogleCalendarService.get_available_slots`: closed weekday → `[]`,
otherwise generate slots over the open window against the merged busy
periods. -/
def get_available_slots (env : CalendarEnv) (date : Date)
    (service_duration_minutes : Int) : List Slot :=
  match business_hours (pyWeekday date) with
  | none => []
  | some (start_hour, end_hour) =>
    let start_datetime := env.dayHourEpoch date start_hour
    let end_datetime := env.dayHourEpoch date end_hour
    generate_available_slots start_datetime end_datetime
      (get_busy_periods env start_datetime end_datetime) service_duration_minutes

/-! ## Creating an appointment: `GoogleCalendarService.create_appointment` -/

/-- Python truthiness of an optional string (`if not service_type`,
`if patient_email`): `None` and `""` are falsy. -/
def pyTruthy (o : Option String) : Bool :=
  match o with
  | none => false
  | some s => !(s == "")

/-- Python `str.capitalize` (first character upper, rest lower; ASCII case
mapping as elsewhere in the embedding). -/
def pyCapitalize (s : String) : String :=
  match s.data with
  | [] => ""
  | c :: rest => ⟨c.toUpper :: rest.map Char.toLower⟩

/-- The `description` f-string of the event body; the email and phone
lines are emitted only when the value is truthy. -/
def descriptionText (patient_name service_type : String)
    (patient_email patient_phone : Option String) : String :=
  "Patient: " ++ patient_name ++ "\nService: " ++ service_type ++ "\n" ++
    (if pyTruthy patient_email then "Email: " ++ patient_email.getD "" ++ "\n" else "") ++
    (if pyTruthy patient_phone then "Téléphone: " ++ patient_phone.getD "" else "")

/-- The `event` dictionary built by `create_appointment`. -/
def build_event (start_time end_time : Int) (patient_name service_type : String)
    (patient_email patient_phone : Option String) : EventBody :=
  { summary := pyCapitalize service_type ++ " - " ++ patient_name,
    description := descriptionText patient_name service_type patient_email patient_phone,
    start_dt := start_time,
    end_dt := end_time }

/-- The information content of a `'%Y-%m-%d %H:%M'` rendering at the fixed
clinic timezone: the instant truncated to the minute. -/
def fmtMinute (t : Int) : Int := t - t % 60

/-- The dictionary returned by a successful `create_appointment`; `start`
and `end_` hold the minute-precision renderings of the committed bounds. -/
structure CreatedAppointment where
  id : String
  link : String
  start : Int
  end_ : Int
  patient : String
  service : String
deriving DecidableEq, Repr

/-- `GoogleCalendarService.create_appointment`.  First component: the
returned value (`none` embeds both the early `start_time >= end_time`
return and a caught insert exception).  Second component: the event body
sent to the remote insert, `none` when no insert was attempted. -/
def create_appointment (env : CalendarEnv) (start_time end_time : Int)
    (patient_name service_type : String)
    (patient_email patient_phone : Option String) :
    Option CreatedAppointment × Option EventBody :=
  if end_time ≤ start_time then (none, none)
  else
    match env.insertEvent (build_event start_time end_time patient_name service_type
        patient_email patient_phone) with
    | some created =>
      (some { id := created.id, link := created.link,
              start := fmtMinute start_time, end_ := fmtMinute end_time,
              patient := patient_name, service := service_type },
       some (build_event start_time end_time patient_name service_type
         patient_email patient_phone))
    | none =>
      (none, some (build_event start_time end_time patient_name service_type
        patient_email patient_phone))

/-! ## The booking session and `book_appointment` -/

/-- `AppointmentProcessor.appointment_state`: the per-conversation session
dictionary.  The initial `{}` makes every `get` return its default. -/
structure AppointmentState where
  date : Option Date
  service_type : Option String
  available_slots : List Slot
  duration : Option Int
deriving DecidableEq, Repr

def emptyState : AppointmentState :=
  { date := none, service_type := none, available_slots := [], duration := none }

/-- `AppointmentProcessor.process_appointment_request`: on a parse failure
the raised `ValueError` is caught, `[]` is returned and the session is left
untouched; on success the session is overwritten wholesale. -/
def process_appointment_request (env : CalendarEnv) (st : AppointmentState)
    (date_str service_type : String) : List Slot × AppointmentState :=
  match parse_date date_str with
  | none => ([], st)
  | some date =>
    let duration := get_service_duration service_type
    let slots := get_available_slots env date duration
    (slots,
     { date := some date, service_type := some service_type,
       available_slots := slots, duration := some duration })

/-- The 60-second tolerance test of `book_appointment`
(`abs(int(slot['start_datetime'].timestamp()) - start) < 60 and ...`;
slot instants are whole seconds, so `int(...)` is the identity). -/
def slotMatches (slot : Slot) (start end_ : Int) : Bool :=
  decide ((slot.start_datetime - start).natAbs < 60) &&
    decide ((slot.end_datetime - end_).natAbs < 60)

/-- The `next((slot for slot in slots if ...), None)` search: the first
matching slot in stored order. -/
def find_slot (slots : List Slot) (start end_ : Int) : Option Slot :=
  slots.find? fun slot => slotMatches slot start end_

/-- The `patientInfo` argument; `get` with defaults makes every field
optional. -/
structure PatientInfo where
  name : Option String
  phone : Option String
  email : Option String
deriving DecidableEq, Repr

/-- The distinct failure branches of `book_appointment`; the source
distinguishes them only in its log lines and returns `None` for each. -/
inductive BookFailure where
  | incompleteState
  | slotNotFound
  | createFailed
deriving DecidableEq, Repr

/-- The dictionary returned by a successful `book_appointment`. -/
structure BookingResult where
  start : Int
  end_ : Int
  patient : String
  service : String
deriving DecidableEq, Repr

/-- `AppointmentProcessor.book_appointment`.  Components: the outcome
(`Except` tags which `return None` branch was taken), the event body sent
to the remote insert if any, and the session as the call leaves it (the
source never writes `self.appointment_state` here). -/
def book_appointment (env : CalendarEnv) (st : AppointmentState)
    (start end_ : Int) (patient_info : PatientInfo) :
    Except BookFailure BookingResult × Option EventBody × AppointmentState :=
  if !pyTruthy st.service_type || st.available_slots.isEmpty then
    (Except.error BookFailure.incompleteState, none, st)
  else
    match find_slot st.available_slots start end_ with
    | none => (Except.error BookFailure.slotNotFound, none, st)
    | some slot =>
      match create_appointment env slot.start_datetime slot.end_datetime
          (patient_info.name.getD "") (st.service_type.getD "")
          patient_info.email patient_info.phone with
      | (some appt, ev) =>
        (Except.ok { start := appt.start, end_ := appt.end_,
                     patient := appt.patient, service := appt.service },
         ev, st)
      | (none, ev) => (Except.error BookFailure.createFailed, ev, st)

/-- The Python return value of `book_appointment` (`None` on every failure). -/
def book_appointment_result (env : CalendarEnv) (st : AppointmentState)
    (start end_ : Int) (patient_info : PatientInfo) : Option BookingResult :=
  (book_appointment env st start end_ patient_info).1.toOption

/-- `AppointmentProcessor._handle_book_appointment`: the sentence handed to
the conversation layer (the appointment `start` field, a string in the
source, prints through `toString` here). -/
def handle_book_appointment_response (r : Option BookingResult) : String :=
  match r with
  | some a =>
    "Parfait ! Rendez-vous confirmé pour " ++ a.service ++ " le " ++
      toString a.start ++ " au nom de " ++ a.patient ++
      ".\nVous recevrez une confirmation par email."
  | none =>
    "Je suis désolée, je n\x27ai pas pu réserver ce créneau. Souhaitez-vous essayer un autre ?"

/-! ## Theorems -/

/-- Every slot the generation loop emits passes the per-period conflict
test against every busy period it was given. -/
theorem generateSlotsGo_disjoint (end_datetime : Int) (busy : List (Int × Int))
    (dur : Int) :
    ∀ (fuel : Nat) (cur : Int) (slot : Slot),
      slot ∈ generateSlotsGo end_datetime busy dur fuel cur →
      ∀ b ∈ busy, ¬(slot.start_datetime < b.2 ∧ slot.end_datetime > b.1) := by
  intro fuel
  induction fuel with
  | zero => intro cur slot h; simp [generateSlotsGo] at h
  | succ n ih =>
    intro cur slot h b hb
    simp only [generateSlotsGo] at h
    by_cases hc : cur + dur ≤ end_datetime
    · rw [if_pos hc] at h
      by_cases hov : overlapsBusy cur (cur + dur) busy = true
      · rw [if_pos hov] at h
        exact ih _ _ h b hb
      · rw [if_neg hov] at h
        cases h with
        | head =>
          intro hcon
          apply hov
          simp only [overlapsBusy, List.any_eq_true, Bool.and_eq_true, decide_eq_true_eq]
          exact ⟨b, hb, hcon.1, hcon.2⟩
        | tail _ h' => exact ih _ _ h' b hb
    · rw [if_neg hc] at h
      simp at h

/-- C1: for every business-hours window, every duration and every set of
busy periods (after merging), every slot returned by the slot generator is
half-open disjoint from every busy period: never
`slot.start < busy.end ∧ slot.end > busy.start`. -/
theorem c1_slots_disjoint_from_merged_busy
    (start_datetime end_datetime duration_minutes : Int)
    (periods : List (Int × Int)) :
    ∀ slot ∈ generate_available_slots start_datetime end_datetime
        (merge_overlapping_periods periods) duration_minutes,
      ∀ b ∈ merge_overlapping_periods periods,
        ¬(slot.start_datetime < b.2 ∧ slot.end_datetime > b.1) := by
  intro slot h b hb
  exact generateSlotsGo_disjoint _ _ _ _ _ _ h b hb

/-- Witness for C1: Monday 9:00–17:00 (epoch seconds from local midnight),
one busy period 10:00–11:00, a 45-minute service; the 9:00–9:45 slot is
generated and is disjoint from the busy period. -/
theorem c1_witness : ¬((32400 : Int) < 39600 ∧ (35100 : Int) > 36000) :=
  c1_slots_disjoint_from_merged_busy 32400 61200 45 [(36000, 39600)]
    ⟨32400, 35100⟩ (by decide) (36000, 39600) (by decide)

/-- The merge walk keeps the start of the accumulated period. -/
theorem mergeGo_head :
    ∀ (rest : List (Int × Int)) (cur : Int × Int),
      ∃ e ps, mergeGo cur rest = (cur.1, e) :: ps := by
  intro rest
  induction rest with
  | nil => intro cur; exact ⟨cur.2, [], rfl⟩
  | cons p ps ih =>
    intro cur
    by_cases h : p.1 ≤ cur.2
    · simpa only [mergeGo, if_pos h] using ih (cur.1, max cur.2 p.2)
    · exact ⟨cur.2, mergeGo p ps, by simp [mergeGo, if_neg h]⟩

/-- Adjacent periods in the merge output never touch: the next start lies
strictly after the previous end. -/
theorem mergeGo_chain_gap :
    ∀ (rest : List (Int × Int)) (cur : Int × Int),
      List.Chain' (fun a b : Int × Int => a.2 < b.1) (mergeGo cur rest) := by
  intro rest
  induction rest with
  | nil => intro cur; simp [mergeGo]
  | cons p ps ih =>
    intro cur
    by_cases h : p.1 ≤ cur.2
    · simpa only [mergeGo, if_pos h] using ih (cur.1, max cur.2 p.2)
    · simp only [mergeGo, if_neg h]
      obtain ⟨e, qs, heq⟩ := mergeGo_head ps p
      rw [heq]
      rw [List.chain'_cons]
      exact ⟨by omega, heq ▸ ih p⟩

/-- The merge output stays sorted by start when the sorted walk starts
from a sorted list. -/
theorem mergeGo_sorted :
    ∀ (rest : List (Int × Int)) (cur : Int × Int),
      List.Chain' startLE (cur :: rest) →
      List.Chain' startLE (mergeGo cur rest) := by
  intro rest
  induction rest with
  | nil => intro cur _; simp [mergeGo]
  | cons p ps ih =>
    intro cur hch
    rw [List.chain'_cons] at hch
    obtain ⟨hcp, hch'⟩ := hch
    by_cases h : p.1 ≤ cur.2
    · simp only [mergeGo, if_pos h]
      apply ih (cur.1, max cur.2 p.2)
      cases ps with
      | nil => simp
      | cons q qs =>
        rw [List.chain'_cons] at hch' ⊢
        exact ⟨le_trans hcp hch'.1, hch'.2⟩
    · simp only [mergeGo, if_neg h]
      obtain ⟨e, qs, heq⟩ := mergeGo_head ps p
      rw [heq, List.chain'_cons]
      exact ⟨hcp, heq ▸ ih p hch'⟩

/-- A walk over periods that already stand strictly apart changes nothing. -/
theorem mergeGo_fixed :
    ∀ (rest : List (Int × Int)) (cur : Int × Int),
      List.Chain' (fun a b : Int × Int => a.2 < b.1) (cur :: rest) →
      mergeGo cur rest = cur :: rest := by
  intro rest
  induction rest with
  | nil => intro cur _; rfl
  | cons p ps ih =>
    intro cur h
    rw [List.chain'_cons] at h
    have hnot : ¬ p.1 ≤ cur.2 := by omega
    simp only [mergeGo, if_neg hnot]
    rw [ih p h.2]

/-- C9: the busy-period merge is idempotent — applying
`_merge_overlapping_periods` to its own output yields the same list
(equivalently, a sorted, strictly separated list is a fixed point). -/
theorem c9_merge_idempotent (periods : List (Int × Int)) :
    merge_overlapping_periods (merge_overlapping_periods periods) =
      merge_overlapping_periods periods := by
  cases hs : List.insertionSort startLE periods with
  | nil =>
    have h1 : merge_overlapping_periods periods = [] := by
      unfold merge_overlapping_periods
      rw [hs]
    rw [h1]
    rfl
  | cons p ps =>
    have hout : merge_overlapping_periods periods = mergeGo p ps := by
      unfold merge_overlapping_periods
      rw [hs]
    have hsorted : List.Sorted startLE (p :: ps) :=
      hs ▸ List.sorted_insertionSort startLE periods
    have hchain : List.Chain' startLE (p :: ps) := List.Pairwise.chain' hsorted
    have hout_pairwise : List.Pairwise startLE (mergeGo p ps) :=
      List.chain'_iff_pairwise.mp (mergeGo_sorted ps p hchain)
    have hfix : List.insertionSort startLE (mergeGo p ps) = mergeGo p ps :=
      List.Sorted.insertionSort_eq hout_pairwise
    obtain ⟨e, qs, heq⟩ := mergeGo_head ps p
    have hgap := mergeGo_chain_gap ps p
    rw [heq] at hgap
    rw [hout]
    unfold merge_overlapping_periods
    rw [hfix, heq]
    exact mergeGo_fixed qs (p.1, e) hgap

/-- The table walk returns the value of the first matching key. -/
theorem serviceLookup_first_match :
    ∀ (l₁ : List (String × Int)) (k : String) (v : Int) (l₂ : List (String × Int))
      (target : List Char),
      (∀ kv ∈ l₁, ¬(kv.1.data <:+: target)) →
      k.data <:+: target →
      serviceLookup (l₁ ++ (k, v) :: l₂) target = v := by
  intro l₁
  induction l₁ with
  | nil =>
    intro k v l₂ target _ hk
    simp [serviceLookup, hk]
  | cons kv rest ih =>
    intro k v l₂ target hmiss hk
    have hkv : ¬(kv.1.data <:+: target) := hmiss kv (List.mem_cons_self kv rest)
    cases kv with
    | mk k' v' =>
      simp only [List.cons_append, serviceLookup, if_neg hkv]
      exact ih k v l₂ target (fun x hx => hmiss x (List.mem_cons_of_mem _ hx)) hk

/-- The table walk falls through to the default 60 when nothing matches. -/
theorem serviceLookup_default :
    ∀ (tbl : List (String × Int)) (target : List Char),
      (∀ kv ∈ tbl, ¬(kv.1.data <:+: target)) →
      serviceLookup tbl target = 60 := by
  intro tbl
  induction tbl with
  | nil => intro target _; rfl
  | cons kv rest ih =>
    intro target hmiss
    have hkv : ¬(kv.1.data <:+: target) := hmiss kv (List.mem_cons_self kv rest)
    cases kv with
    | mk k' v' =>
      simp only [serviceLookup, if_neg hkv]
      exact ih target fun x hx => hmiss x (List.mem_cons_of_mem _ hx)

/-- C10: service-duration resolution is total over all input strings (it
is a function into durations, never a failure); it returns the duration of
the first keyword, in the declared table order, whose characters occur as
a substring of the lowercased input, and 60 when no keyword matches. -/
theorem c10_service_duration_first_match_or_default (s : String) :
    (∀ (l₁ : List (String × Int)) (k : String) (v : Int) (l₂ : List (String × Int)),
        durations = l₁ ++ (k, v) :: l₂ →
        (∀ kv ∈ l₁, ¬(kv.1.data <:+: pyLower s)) →
        k.data <:+: pyLower s →
        get_service_duration s = v) ∧
    ((∀ kv ∈ durations, ¬(kv.1.data <:+: pyLower s)) →
        get_service_duration s = 60) := by
  constructor
  · intro l₁ k v l₂ htbl hmiss hk
    unfold get_service_duration
    rw [htbl]
    exact serviceLookup_first_match l₁ k v l₂ (pyLower s) hmiss hk
  · intro hmiss
    exact serviceLookup_default durations (pyLower s) hmiss

set_option maxRecDepth 8192 in
/-- Witness for C10: "Grand Nettoyage" skips the non-matching first
keyword and resolves to 45; the all-caps accented "CONTRÔLE" lowers to
"contrôle" and resolves to 30; an unknown service falls back to 60. -/
theorem c10_witness :
    get_service_duration "Grand Nettoyage" = 45 ∧
    get_service_duration "CONTRÔLE" = 30 ∧
    get_service_duration "zzz" = 60 :=
  ⟨(c10_service_duration_first_match_or_default "Grand Nettoyage").1
      [("contrôle", 30)] "nettoyage" 45
      [("carie", 60), ("obturation", 60), ("couronne", 90), ("bridge", 90),
        ("blanchiment", 60), ("canal", 90), ("extraction", 45)]
      rfl (by decide) (by decide),
    (c10_service_duration_first_match_or_default "CONTRÔLE").1
      [] "contrôle" 30
      [("nettoyage", 45), ("carie", 60), ("obturation", 60), ("couronne", 90),
        ("bridge", 90), ("blanchiment", 60), ("canal", 90), ("extraction", 45)]
      rfl (by decide) (by decide),
    (c10_service_duration_first_match_or_default "zzz").2 (by decide)⟩

/-- C8: `create_appointment` called with `start >= end` fails without side
effects — no event body is built or sent — and a remote error during the
insert yields a failure value together with the attempted body, never a
partial appointment. -/
theorem c8_create_appointment_guard_and_remote_failure (env : CalendarEnv)
    (start_time end_time : Int) (patient_name service_type : String)
    (patient_email patient_phone : Option String) :
    (end_time ≤ start_time →
      create_appointment env start_time end_time patient_name service_type
        patient_email patient_phone = (none, none)) ∧
    (start_time < end_time →
      env.insertEvent (build_event start_time end_time patient_name service_type
        patient_email patient_phone) = none →
      create_appointment env start_time end_time patient_name service_type
        patient_email patient_phone =
        (none, some (build_event start_time end_time patient_name service_type
          patient_email patient_phone))) := by
  constructor
  · intro h
    simp [create_appointment, h]
  · intro h hrem
    have hn : ¬ end_time ≤ start_time := by omega
    simp [create_appointment, hn, hrem]

/-- Witness for C8: an inverted interval is rejected with nothing sent; a
failing remote insert yields a reported failure alongside the body it
tried to send. -/
theorem c8_witness :
    create_appointment ⟨fun _ h => (h : Int) * 3600, fun _ _ => some [], fun _ => none⟩
        10 5 "Dupont" "contrôle" none none = (none, none) ∧
    create_appointment ⟨fun _ h => (h : Int) * 3600, fun _ _ => some [], fun _ => none⟩
        0 10 "Dupont" "contrôle" none none =
      (none, some (build_event 0 10 "Dupont" "contrôle" none none)) :=
  ⟨(c8_create_appointment_guard_and_remote_failure _ 10 5 "Dupont" "contrôle" none none).1
      (by decide),
    (c8_create_appointment_guard_and_remote_failure _ 0 10 "Dupont" "contrôle" none none).2
      (by decide) rfl⟩

/-- A successful `create_appointment` happened strictly inside the guard:
it sent exactly the built body and echoes the minute renderings of the
instants it was given. -/
theorem create_appointment_ok (env : CalendarEnv) (s e : Int)
    (n sv : String) (em ph : Option String) (appt : CreatedAppointment)
    (ev : Option EventBody)
    (h : create_appointment env s e n sv em ph = (some appt, ev)) :
    s < e ∧ ev = some (build_event s e n sv em ph) ∧
      appt.start = fmtMinute s ∧ appt.end_ = fmtMinute e ∧
      appt.patient = n ∧ appt.service = sv := by
  unfold create_appointment at h
  by_cases hse : e ≤ s
  · rw [if_pos hse, Prod.mk.injEq] at h
    exact absurd h.1 (by simp)
  · rw [if_neg hse] at h
    cases henv : env.insertEvent (build_event s e n sv em ph) with
    | none =>
      rw [henv, Prod.mk.injEq] at h
      exact absurd h.1 (by simp)
    | some created =>
      rw [henv, Prod.mk.injEq] at h
      obtain ⟨h1, h2⟩ := h
      have h1' := Option.some.inj h1
      refine ⟨by omega, h2.symm, ?_, ?_, ?_, ?_⟩ <;> rw [← h1']

/-- Branch equation: the incomplete-state early return. -/
theorem book_appointment_eq_incomplete (env : CalendarEnv) (st : AppointmentState)
    (start end_ : Int) (p : PatientInfo)
    (hc : (!pyTruthy st.service_type || st.available_slots.isEmpty) = true) :
    book_appointment env st start end_ p =
      (Except.error BookFailure.incompleteState, none, st) := by
  unfold book_appointment
  rw [hc]
  rfl

/-- Branch equation: no stored slot matches within tolerance. -/
theorem book_appointment_eq_notfound (env : CalendarEnv) (st : AppointmentState)
    (start end_ : Int) (p : PatientInfo)
    (hc : (!pyTruthy st.service_type || st.available_slots.isEmpty) = false)
    (hfind : find_slot st.available_slots start end_ = none) :
    book_appointment env st start end_ p =
      (Except.error BookFailure.slotNotFound, none, st) := by
  unfold book_appointment
  rw [hc, hfind]
  rfl

/-- Branch equation: a slot matched; the outcome is the calendar write's. -/
theorem book_appointment_eq_found (env : CalendarEnv) (st : AppointmentState)
    (start end_ : Int) (p : PatientInfo) (slot : Slot)
    (hc : (!pyTruthy st.service_type || st.available_slots.isEmpty) = false)
    (hfind : find_slot st.available_slots start end_ = some slot) :
    book_appointment env st start end_ p =
      (match create_appointment env slot.start_datetime slot.end_datetime
          (p.name.getD "") (st.service_type.getD "") p.email p.phone with
        | (some appt, ev) =>
          (Except.ok { start := appt.start, end_ := appt.end_,
                       patient := appt.patient, service := appt.service },
           ev, st)
        | (none, ev) => (Except.error BookFailure.createFailed, ev, st)) := by
  unfold book_appointment
  rw [hc, hfind]
  rfl

/-- `book_appointment` never writes the session: the source function
reads `self.appointment_state` and never assigns to it. -/
theorem book_appointment_state_unchanged (env : CalendarEnv) (st : AppointmentState)
    (start end_ : Int) (p : PatientInfo) :
    (book_appointment env st start end_ p).2.2 = st := by
  unfold book_appointment
  by_cases hc : (!pyTruthy st.service_type || st.available_slots.isEmpty) = true
  · rw [if_pos hc]
  · rw [if_neg hc]
    cases find_slot st.available_slots start end_ with
    | none => rfl
    | some slot =>
      rcases hcr : create_appointment env slot.start_datetime slot.end_datetime
          (p.name.getD "") (st.service_type.getD "") p.email p.phone with ⟨fst, snd⟩
      cases fst <;> simp [hcr]

/-- Characterization of a successful `book_appointment`: some stored slot
was the first tolerance match, the event body built from that slot's exact
bounds was sent, and the confirmation carries the slot-derived fields. -/
theorem book_appointment_ok (env : CalendarEnv) (st : AppointmentState)
    (start end_ : Int) (p : PatientInfo) (a : BookingResult)
    (h : (book_appointment env st start end_ p).1 = Except.ok a) :
    ∃ slot, find_slot st.available_slots start end_ = some slot ∧
      slot.start_datetime < slot.end_datetime ∧
      (book_appointment env st start end_ p).2.1 =
        some (build_event slot.start_datetime slot.end_datetime (p.name.getD "")
          (st.service_type.getD "") p.email p.phone) ∧
      a.start = fmtMinute slot.start_datetime ∧
      a.end_ = fmtMinute slot.end_datetime ∧
      a.patient = p.name.getD "" ∧ a.service = st.service_type.getD "" := by
  rcases hc : (!pyTruthy st.service_type || st.available_slots.isEmpty) with _ | _
  · cases hfind : find_slot st.available_slots start end_ with
    | none =>
      rw [book_appointment_eq_notfound env st start end_ p hc hfind] at h
      exact absurd h (by simp)
    | some slot =>
      rw [book_appointment_eq_found env st start end_ p slot hc hfind] at h ⊢
      cases hcr : create_appointment env slot.start_datetime slot.end_datetime
          (p.name.getD "") (st.service_type.getD "") p.email p.phone with
      | mk fst snd =>
        cases fst with
        | none =>
          rw [hcr] at h
          exact absurd h (by simp)
        | some appt =>
          obtain ⟨hlt, hev, hstart, hend, hpat, hsvcp⟩ :=
            create_appointment_ok env slot.start_datetime slot.end_datetime
              (p.name.getD "") (st.service_type.getD "") p.email p.phone appt snd hcr
          rw [hcr] at h
          have ha := Except.ok.inj h
          subst ha
          exact ⟨slot, rfl, hlt, hev, hstart, hend, hpat, hsvcp⟩
  · rw [book_appointment_eq_incomplete env st start end_ p hc] at h
    exact absurd h (by simp)

/-- `List.find?` returns the first element satisfying the predicate. -/
theorem find?_first_of_split {α : Type} (p : α → Bool) :
    ∀ (l₁ : List α) (a : α) (l₂ : List α),
      (∀ x ∈ l₁, p x = false) → p a = true →
      List.find? p (l₁ ++ a :: l₂) = some a := by
  intro l₁
  induction l₁ with
  | nil =>
    intro a l₂ _ ha
    simp [List.find?_cons, ha]
  | cons x xs ih =>
    intro a l₂ hmiss ha
    have hx : p x = false := hmiss x (List.mem_cons_self x xs)
    simp only [List.cons_append, List.find?_cons, hx]
    exact ih a l₂ (fun y hy => hmiss y (List.mem_cons_of_mem _ hy)) ha

/-- C2: with a populated session, `book_appointment` matches the request
against the stored slots with an independent strict 60-second tolerance on
each bound, the first stored match winning; a request within 59 seconds of
some slot on both bounds books that slot (succeeding whenever the remote
insert succeeds), and a request 60 or more seconds off every slot on
either bound fails with the slot-not-found failure. -/
theorem c2_book_appointment_tolerance (env : CalendarEnv) (st : AppointmentState)
    (start end_ : Int) (p : PatientInfo)
    (hsvc : pyTruthy st.service_type = true)
    (hslots : st.available_slots ≠ []) :
    (∀ slot : Slot, slotMatches slot start end_ = true ↔
        ((slot.start_datetime - start).natAbs < 60 ∧
          (slot.end_datetime - end_).natAbs < 60)) ∧
    ((∀ slot ∈ st.available_slots,
        60 ≤ (slot.start_datetime - start).natAbs ∨
          60 ≤ (slot.end_datetime - end_).natAbs) →
      (book_appointment env st start end_ p).1 =
        Except.error BookFailure.slotNotFound) ∧
    (∀ (l₁ : List Slot) (slot : Slot) (l₂ : List Slot),
        st.available_slots = l₁ ++ slot :: l₂ →
        (∀ x ∈ l₁, slotMatches x start end_ = false) →
        slotMatches slot start end_ = true →
        find_slot st.available_slots start end_ = some slot ∧
        (slot.start_datetime < slot.end_datetime →
          ∀ r : RemoteEvent, (∀ b, env.insertEvent b = some r) →
          ∃ a, (book_appointment env st start end_ p).1 = Except.ok a)) := by
  have hcond : (!pyTruthy st.service_type || st.available_slots.isEmpty) = false := by
    rw [hsvc]
    simpa using hslots
  refine ⟨?_, ?_, ?_⟩
  · intro slot
    simp [slotMatches]
  · intro hfar
    have hnone : find_slot st.available_slots start end_ = none := by
      rw [find_slot, List.find?_eq_none]
      intro slot hmem
      have := hfar slot hmem
      simp only [slotMatches, Bool.and_eq_true, decide_eq_true_eq, not_and]
      omega
    rw [book_appointment_eq_notfound env st start end_ p hcond hnone]
  · intro l₁ slot l₂ hsplit hmiss hmatch
    have hfind : find_slot st.available_slots start end_ = some slot := by
      rw [find_slot, hsplit]
      exact find?_first_of_split _ l₁ slot l₂ hmiss hmatch
    refine ⟨hfind, ?_⟩
    intro hlt r hins
    rw [book_appointment_eq_found env st start end_ p slot hcond hfind]
    have hne : ¬ slot.end_datetime ≤ slot.start_datetime := by omega
    have hcreq : create_appointment env slot.start_datetime slot.end_datetime
        (p.name.getD "") (st.service_type.getD "") p.email p.phone =
        (some { id := r.id, link := r.link,
                start := fmtMinute slot.start_datetime,
                end_ := fmtMinute slot.end_datetime,
                patient := p.name.getD "", service := st.service_type.getD "" },
         some (build_event slot.start_datetime slot.end_datetime
           (p.name.getD "") (st.service_type.getD "") p.email p.phone)) := by
      unfold create_appointment
      rw [if_neg hne, hins]
    rw [hcreq]
    exact ⟨_, rfl⟩

/-- Witness for C2: a session offering 16:00–16:46 and 16:46–17:16 slots
(epoch seconds 960/2760/4560); a request 59 seconds off the first slot's
start books it, a request 60 seconds off fails with slot-not-found. -/
theorem c2_witness :
    find_slot [⟨960, 2760⟩, ⟨2760, 4560⟩] 1019 2760 = some ⟨960, 2760⟩ ∧
    (∃ a, (book_appointment
        ⟨fun _ h => (h : Int) * 3600, fun _ _ => some [], fun _ => some ⟨"id", "lnk"⟩⟩
        ⟨none, some "contrôle", [⟨960, 2760⟩, ⟨2760, 4560⟩], some 30⟩
        1019 2760 ⟨some "Dupont", some "0600000000", none⟩).1 = Except.ok a) ∧
    (book_appointment
        ⟨fun _ h => (h : Int) * 3600, fun _ _ => some [], fun _ => some ⟨"id", "lnk"⟩⟩
        ⟨none, some "contrôle", [⟨960, 2760⟩, ⟨2760, 4560⟩], some 30⟩
        1020 2760 ⟨some "Dupont", some "0600000000", none⟩).1 =
      Except.error BookFailure.slotNotFound := by
  refine ⟨?_, ?_, ?_⟩
  · exact ((c2_book_appointment_tolerance
      ⟨fun _ h => (h : Int) * 3600, fun _ _ => some [], fun _ => some ⟨"id", "lnk"⟩⟩
      ⟨none, some "contrôle", [⟨960, 2760⟩, ⟨2760, 4560⟩], some 30⟩
      1019 2760 ⟨some "Dupont", some "0600000000", none⟩ rfl (by decide)).2.2
      [] ⟨960, 2760⟩ [⟨2760, 4560⟩] rfl (by decide) (by decide)).1
  · exact ((c2_book_appointment_tolerance
      ⟨fun _ h => (h : Int) * 3600, fun _ _ => some [], fun _ => some ⟨"id", "lnk"⟩⟩
      ⟨none, some "contrôle", [⟨960, 2760⟩, ⟨2760, 4560⟩], some 30⟩
      1019 2760 ⟨some "Dupont", some "0600000000", none⟩ rfl (by decide)).2.2
      [] ⟨960, 2760⟩ [⟨2760, 4560⟩] rfl (by decide) (by decide)).2
      (by decide) ⟨"id", "lnk"⟩ (fun _ => rfl)
  · exact (c2_book_appointment_tolerance
      ⟨fun _ h => (h : Int) * 3600, fun _ _ => some [], fun _ => some ⟨"id", "lnk"⟩⟩
      ⟨none, some "contrôle", [⟨960, 2760⟩, ⟨2760, 4560⟩], some 30⟩
      1020 2760 ⟨some "Dupont", some "0600000000", none⟩ rfl (by decide)).2.1
      (by decide)

/-- Counterexample to C4 as stated: booking against an empty session and
booking against a populated session whose slots are all far from the
request take the two distinct internal failure branches, yet the
user-facing report handed to the conversation layer is the *same* generic
sentence — there is no distinct "please check availability first" report. -/
theorem c4_counterexample :
    (book_appointment
        ⟨fun _ h => (h : Int) * 3600, fun _ _ => some [], fun _ => some ⟨"id", "lnk"⟩⟩
        emptyState 960 2760 ⟨some "Dupont", some "0600000000", none⟩).1 =
      Except.error BookFailure.incompleteState ∧
    (book_appointment
        ⟨fun _ h => (h : Int) * 3600, fun _ _ => some [], fun _ => some ⟨"id", "lnk"⟩⟩
        ⟨none, some "contrôle", [⟨960, 2760⟩], some 30⟩
        100000 200000 ⟨some "Dupont", some "0600000000", none⟩).1 =
      Except.error BookFailure.slotNotFound ∧
    handle_book_appointment_response
        (book_appointment
          ⟨fun _ h => (h : Int) * 3600, fun _ _ => some [], fun _ => some ⟨"id", "lnk"⟩⟩
          emptyState 960 2760 ⟨some "Dupont", some "0600000000", none⟩).1.toOption =
      handle_book_appointment_response
        (book_appointment
          ⟨fun _ h => (h : Int) * 3600, fun _ _ => some [], fun _ => some ⟨"id", "lnk"⟩⟩
          ⟨none, some "contrôle", [⟨960, 2760⟩], some 30⟩
          100000 200000 ⟨some "Dupont", some "0600000000", none⟩).1.toOption :=
  ⟨rfl, rfl, rfl⟩

/-- C4 (amended): a `bookAppointment` call with no populated session (no
service type recorded, or zero stored slots) fails with the
incomplete-state failure — a branch distinct from slot-not-found in the
engine's control flow and logs — but the user-facing report is the same
generic failure sentence used for every booking failure. -/
theorem c4_incomplete_session_failure (env : CalendarEnv) (st : AppointmentState)
    (start end_ : Int) (p : PatientInfo)
    (h : pyTruthy st.service_type = false ∨ st.available_slots = []) :
    (book_appointment env st start end_ p).1 =
      Except.error BookFailure.incompleteState ∧
    handle_book_appointment_response (book_appointment env st start end_ p).1.toOption =
      "Je suis désolée, je n\x27ai pas pu réserver ce créneau. Souhaitez-vous essayer un autre ?" := by
  have hc : (!pyTruthy st.service_type || st.available_slots.isEmpty) = true := by
    cases h with
    | inl h => simp [h]
    | inr h => simp [h]
  rw [book_appointment_eq_incomplete env st start end_ p hc]
  exact ⟨rfl, rfl⟩

/-- Witness for the amended C4: a booking attempted at conversation start
(empty session) fails with the incomplete-state branch and the generic
failure sentence. -/
theorem c4_witness :
    (book_appointment
        ⟨fun _ h => (h : Int) * 3600, fun _ _ => some [], fun _ => some ⟨"id", "lnk"⟩⟩
        emptyState 960 2760 ⟨some "Dupont", some "0600000000", none⟩).1 =
      Except.error BookFailure.incompleteState ∧
    handle_book_appointment_response
        (book_appointment
          ⟨fun _ h => (h : Int) * 3600, fun _ _ => some [], fun _ => some ⟨"id", "lnk"⟩⟩
          emptyState 960 2760 ⟨some "Dupont", some "0600000000", none⟩).1.toOption =
      "Je suis désolée, je n\x27ai pas pu réserver ce créneau. Souhaitez-vous essayer un autre ?" :=
  c4_incomplete_session_failure
    ⟨fun _ h => (h : Int) * 3600, fun _ _ => some [], fun _ => some ⟨"id", "lnk"⟩⟩
    emptyState 960 2760 ⟨some "Dupont", some "0600000000", none⟩ (Or.inr rfl)

/-- C5: a successful `bookAppointment` creates the calendar event at the
matched stored slot's exact bounds and returns a confirmation whose
start/end are the (minute-rendered) slot bounds — functions of the slot,
not of the caller-supplied, possibly rounded, `start`/`end`; on the
minute-aligned instants the generator produces, the rendering is the slot
bound itself. -/
theorem c5_confirmation_uses_slot_bounds (env : CalendarEnv) (st : AppointmentState)
    (start end_ : Int) (p : PatientInfo) (a : BookingResult)
    (h : (book_appointment env st start end_ p).1 = Except.ok a) :
    ∃ slot body, find_slot st.available_slots start end_ = some slot ∧
      (book_appointment env st start end_ p).2.1 = some body ∧
      body.start_dt = slot.start_datetime ∧ body.end_dt = slot.end_datetime ∧
      a.start = fmtMinute slot.start_datetime ∧
      a.end_ = fmtMinute slot.end_datetime ∧
      (slot.start_datetime % 60 = 0 → a.start = slot.start_datetime) ∧
      (slot.end_datetime % 60 = 0 → a.end_ = slot.end_datetime) := by
  obtain ⟨slot, hfind, hlt, hev, hstart, hend, hpat, hsvc⟩ :=
    book_appointment_ok env st start end_ p a h
  refine ⟨slot, _, hfind, hev, rfl, rfl, hstart, hend, ?_, ?_⟩
  · intro hm
    rw [hstart]
    unfold fmtMinute
    omega
  · intro hm
    rw [hend]
    unfold fmtMinute
    omega

/-- Witness for C5: the caller asks for 970/2770 (10 seconds off); the
event is committed at the offered slot 960–2760 and the confirmation
reports 960/2760, not 970/2770. -/
theorem c5_witness :
    ∃ slot body, find_slot [⟨960, 2760⟩] 970 2770 = some slot ∧
      (book_appointment
        ⟨fun _ h => (h : Int) * 3600, fun _ _ => some [], fun _ => some ⟨"id", "lnk"⟩⟩
        ⟨none, some "contrôle", [⟨960, 2760⟩], some 30⟩
        970 2770 ⟨some "Dupont", some "0600000000", none⟩).2.1 = some body ∧
      body.start_dt = slot.start_datetime ∧ body.end_dt = slot.end_datetime ∧
      (⟨960, 2760, "Dupont", "contrôle"⟩ : BookingResult).start =
        fmtMinute slot.start_datetime ∧
      (⟨960, 2760, "Dupont", "contrôle"⟩ : BookingResult).end_ =
        fmtMinute slot.end_datetime ∧
      (slot.start_datetime % 60 = 0 →
        (⟨960, 2760, "Dupont", "contrôle"⟩ : BookingResult).start = slot.start_datetime) ∧
      (slot.end_datetime % 60 = 0 →
        (⟨960, 2760, "Dupont", "contrôle"⟩ : BookingResult).end_ = slot.end_datetime) :=
  c5_confirmation_uses_slot_bounds
    ⟨fun _ h => (h : Int) * 3600, fun _ _ => some [], fun _ => some ⟨"id", "lnk"⟩⟩
    ⟨none, some "contrôle", [⟨960, 2760⟩], some 30⟩
    970 2770 ⟨some "Dupont", some "0600000000", none⟩
    ⟨960, 2760, "Dupont", "contrôle"⟩ rfl

/-- C6: a failed `bookAppointment` — whichever failure branch was taken —
leaves the session exactly as it was, so an immediately retried call runs
against the very same offered slots. -/
theorem c6_failed_booking_preserves_session (env : CalendarEnv) (st : AppointmentState)
    (start end_ : Int) (p : PatientInfo) (err : BookFailure)
    (h : (book_appointment env st start end_ p).1 = Except.error err) :
    (book_appointment env st start end_ p).2.2 = st ∧
    ∀ (start2 end2 : Int) (p2 : PatientInfo),
      book_appointment env (book_appointment env st start end_ p).2.2 start2 end2 p2 =
        book_appointment env st start2 end2 p2 := by
  refine ⟨book_appointment_state_unchanged env st start end_ p, ?_⟩
  intro start2 end2 p2
  rw [book_appointment_state_unchanged]

/-- Witness for C6: a booking 120 seconds off the single offered slot
fails with slot-not-found and the session survives unchanged. -/
theorem c6_witness :
    (book_appointment
        ⟨fun _ h => (h : Int) * 3600, fun _ _ => some [], fun _ => some ⟨"id", "lnk"⟩⟩
        ⟨none, some "contrôle", [⟨960, 2760⟩], some 30⟩
        1080 2880 ⟨some "Dupont", some "0600000000", none⟩).2.2 =
      ⟨none, some "contrôle", [⟨960, 2760⟩], some 30⟩ :=
  (c6_failed_booking_preserves_session
    ⟨fun _ h => (h : Int) * 3600, fun _ _ => some [], fun _ => some ⟨"id", "lnk"⟩⟩
    ⟨none, some "contrôle", [⟨960, 2760⟩], some 30⟩
    1080 2880 ⟨some "Dupont", some "0600000000", none⟩
    BookFailure.slotNotFound rfl).1

/-- C7: a successful `bookAppointment` also leaves the session unchanged:
an event body was sent, and a second call with the same arguments is the
identical computation on the identical session — it matches the same slot
again, succeeds with the same confirmation, and sends the same event body
a second time; nothing prevents double-committing the slot. -/
theorem c7_successful_booking_allows_double_commit (env : CalendarEnv)
    (st : AppointmentState) (start end_ : Int) (p : PatientInfo) (a : BookingResult)
    (h : (book_appointment env st start end_ p).1 = Except.ok a) :
    (book_appointment env st start end_ p).2.2 = st ∧
    ∃ body, (book_appointment env st start end_ p).2.1 = some body ∧
      (book_appointment env (book_appointment env st start end_ p).2.2
          start end_ p).1 = Except.ok a ∧
      (book_appointment env (book_appointment env st start end_ p).2.2
          start end_ p).2.1 = some body := by
  refine ⟨book_appointment_state_unchanged env st start end_ p, ?_⟩
  obtain ⟨slot, hfind, hlt, hev, _, _, _, _⟩ :=
    book_appointment_ok env st start end_ p a h
  refine ⟨_, hev, ?_, ?_⟩ <;> rw [book_appointment_state_unchanged] <;> assumption

/-- Witness for C7: after a successful booking of the 960–2760 slot the
session still holds that slot. -/
theorem c7_witness :
    (book_appointment
        ⟨fun _ h => (h : Int) * 3600, fun _ _ => some [], fun _ => some ⟨"id", "lnk"⟩⟩
        ⟨none, some "contrôle", [⟨960, 2760⟩], some 30⟩
        970 2770 ⟨some "Dupont", some "0600000000", none⟩).2.2 =
      ⟨none, some "contrôle", [⟨960, 2760⟩], some 30⟩ :=
  (c7_successful_booking_allows_double_commit
    ⟨fun _ h => (h : Int) * 3600, fun _ _ => some [], fun _ => some ⟨"id", "lnk"⟩⟩
    ⟨none, some "contrôle", [⟨960, 2760⟩], some 30⟩
    970 2770 ⟨some "Dupont", some "0600000000", none⟩
    ⟨960, 2760, "Dupont", "contrôle"⟩ rfl).1

/-- Counterexample to C3 as stated: a `checkAvailability` call whose date
text parses under no accepted format leaves the previous session — and its
previously offered slots — fully intact and still bookable, instead of
replacing the session. -/
theorem c3_counterexample :
    (process_appointment_request
        ⟨fun _ h => (h : Int) * 3600, fun _ _ => some [], fun _ => some ⟨"id", "lnk"⟩⟩
        ⟨none, some "contrôle", [⟨960, 2760⟩], some 30⟩
        "pas une date" "contrôle").2 =
      ⟨none, some "contrôle", [⟨960, 2760⟩], some 30⟩ ∧
    (⟨none, some "contrôle", [⟨960, 2760⟩], some 30⟩ :
        AppointmentState).available_slots ≠ [] ∧
    (book_appointment
        ⟨fun _ h => (h : Int) * 3600, fun _ _ => some [], fun _ => some ⟨"id", "lnk"⟩⟩
        (process_appointment_request
          ⟨fun _ h => (h : Int) * 3600, fun _ _ => some [], fun _ => some ⟨"id", "lnk"⟩⟩
          ⟨none, some "contrôle", [⟨960, 2760⟩], some 30⟩
          "pas une date" "contrôle").2
        960 2760 ⟨some "Dupont", some "0600000000", none⟩).1 =
      Except.ok ⟨960, 2760, "Dupont", "contrôle"⟩ :=
  ⟨rfl, by decide, rfl⟩

/-- C3 (amended): when the date text parses, `checkAvailability`
overwrites the session wholesale with the new date, service type, duration
and slots — even when the slot list is empty; but when the date text fails
to parse, the raised error is caught and the previous session, including
its offered slots, is left untouched and remains bookable. -/
theorem c3_session_overwrite_on_parse_success (env : CalendarEnv)
    (st : AppointmentState) (date_str service_type : String) :
    (∀ d, parse_date date_str = some d →
      process_appointment_request env st date_str service_type =
        (get_available_slots env d (get_service_duration service_type),
         { date := some d, service_type := some service_type,
           available_slots := get_available_slots env d (get_service_duration service_type),
           duration := some (get_service_duration service_type) })) ∧
    (parse_date date_str = none →
      process_appointment_request env st date_str service_type = ([], st)) := by
  constructor
  · intro d hd
    unfold process_appointment_request
    rw [hd]
  · intro hd
    unfold process_appointment_request
    rw [hd]

/-- Witness for the amended C3: "15/07/2024" parses and fully overwrites
the session; "pas une date" fails to parse and preserves it. -/
theorem c3_witness :
    process_appointment_request
        ⟨fun _ h => (h : Int) * 3600, fun _ _ => some [], fun _ => some ⟨"id", "lnk"⟩⟩
        ⟨none, some "carie", [⟨1, 2⟩], some 60⟩ "15/07/2024" "contrôle" =
      (get_available_slots
          ⟨fun _ h => (h : Int) * 3600, fun _ _ => some [], fun _ => some ⟨"id", "lnk"⟩⟩
          ⟨2024, 7, 15⟩ (get_service_duration "contrôle"),
       { date := some ⟨2024, 7, 15⟩, service_type := some "contrôle",
         available_slots := get_available_slots
           ⟨fun _ h => (h : Int) * 3600, fun _ _ => some [], fun _ => some ⟨"id", "lnk"⟩⟩
           ⟨2024, 7, 15⟩ (get_service_duration "contrôle"),
         duration := some (get_service_duration "contrôle") }) ∧
    process_appointment_request
        ⟨fun _ h => (h : Int) * 3600, fun _ _ => some [], fun _ => some ⟨"id", "lnk"⟩⟩
        ⟨none, some "carie", [⟨1, 2⟩], some 60⟩ "pas une date" "contrôle" =
      ([], ⟨none, some "carie", [⟨1, 2⟩], some 60⟩) :=
  ⟨(c3_session_overwrite_on_parse_success
      ⟨fun _ h => (h : Int) * 3600, fun _ _ => some [], fun _ => some ⟨"id", "lnk"⟩⟩
      ⟨none, some "carie", [⟨1, 2⟩], some 60⟩ "15/07/2024" "contrôle").1
      ⟨2024, 7, 15⟩ rfl,
    (c3_session_overwrite_on_parse_success
      ⟨fun _ h => (h : Int) * 3600, fun _ _ => some [], fun _ => some ⟨"id", "lnk"⟩⟩
      ⟨none, some "carie", [⟨1, 2⟩], some 60⟩ "pas une date" "contrôle").2 rfl⟩

end DentalReceptionist
